import Mathlib

/-!
# Verification of the jsmo browser client

A shallow embedding, in Lean 4, of the jsmo repository: the `GameAPI`
HTTP wrapper (`src/gapi.js` and the token-holding variant in
`src/unnamed/part_000`), the `GommoClient` wrapper
(`src/gommo-client.js`), the `Tile` UI widget (`src/tile.js` and the
flip-animation variant in `src/unnamed/part_005`), the `Card` helper
`findIdOfCardForType` (two versions, `src/unnamed/part_006` and
`src/unnamed/part_008`), and the data-update retry functions of the main
application module (`src/unnamed/part_001`).

JavaScript values are modelled by `JsValue`, thrown errors by `JsError`,
and a settled promise by `Except JsError α`. A `fetch` `Response` is
modelled by `HttpResponse` (its status line and the values its `json()`
and `text()` methods resolve to); the one-shot body stream semantics of
`Response.json()` is modelled separately by `BodyStream` where a method
reads the body twice. Async methods become functions from the response
(or fetch outcome) to `Except JsError` of their resolved value.
-/

namespace Jsmo

/-- A JavaScript value, as far as the client code inspects one: the
primitive cases, objects as association lists, and a promise object
carrying its eventual settlement, resolved or rejected (needed because
the `part_000` variant of `addPlayer` stores an un-awaited
`response.json()` promise in a field). -/
inductive JsValue where
  | null
  | boolean (b : Bool)
  | num (n : Int)
  | str (s : String)
  | obj (fields : List (String × JsValue))
  | promiseResolved (v : JsValue)
  | promiseRejected (msg : String)

/-- A thrown JavaScript error, as the client code throws them:
`new Error(msg)`, `new GommoError(msg, status, details)`, the
`TypeError` from reading an already-consumed response body, and the
strict-mode `ReferenceError` from assigning to an undeclared variable. -/
inductive JsError where
  | plain (msg : String)
  | gommo (msg : String) (status : Nat) (details : String)
  | typeErrorBodyUsed
  | referenceErrorUndeclared (name : String)
  deriving Repr, DecidableEq

/-- A `fetch` `Response` as the wrapper methods consult it: the `ok`
flag, numeric `status`, `statusText`, whether the `content-type` header
names JSON, and the values `response.json()` / `response.text()` would
resolve to on a fresh body. -/
structure HttpResponse where
  ok : Bool
  status : Nat
  statusText : String
  contentTypeJson : Bool
  bodyJson : JsValue
  bodyText : String

/-! ## `encodeURIComponent`

The URL construction of every wrapper method passes the interpolated id,
name, card or direction through `encodeURIComponent`. ECMA-262 leaves
the unreserved characters `A-Z a-z 0-9 - _ . ! ~ * ' ( )` as they are
and percent-encodes every other character's UTF-8 bytes as uppercase
`%XX`. -/

/-- Uppercase hexadecimal digit of a value below 16. -/
def hexDigit (n : Nat) : Char :=
  if n < 10 then Char.ofNat (48 + n) else Char.ofNat (55 + n)

/-- The UTF-8 bytes of a character, as numbers below 256. -/
def utf8Bytes (c : Char) : List Nat :=
  let n := c.toNat
  if n < 0x80 then [n]
  else if n < 0x800 then
    [0xC0 + n / 0x40, 0x80 + n % 0x40]
  else if n < 0x10000 then
    [0xE0 + n / 0x1000, 0x80 + (n / 0x40) % 0x40, 0x80 + n % 0x40]
  else
    [0xF0 + n / 0x40000, 0x80 + (n / 0x1000) % 0x40,
     0x80 + (n / 0x40) % 0x40, 0x80 + n % 0x40]

/-- The characters `encodeURIComponent` leaves unescaped: ASCII letters
and digits and `- _ . ! ~ * ' ( )` (by code point: 45, 95, 46, 33, 126,
42, 39, 40, 41). -/
def isUnescapedURIChar (c : Char) : Bool :=
  let n := c.toNat
  (65 ≤ n && n ≤ 90) || (97 ≤ n && n ≤ 122) || (48 ≤ n && n ≤ 57) ||
  n == 45 || n == 95 || n == 46 || n == 33 || n == 126 ||
  n == 42 || n == 39 || n == 40 || n == 41

/-- `%XX` percent-encoding of one byte, uppercase. -/
def percentEncodeByte (b : Nat) : String :=
  String.mk ['%', hexDigit (b / 16), hexDigit (b % 16)]

/-- `encodeURIComponent`: unreserved characters kept, every other
character's UTF-8 bytes percent-encoded. -/
def encodeURIComponent (s : String) : String :=
  String.join (s.data.map fun c =>
    if isUnescapedURIChar c then String.mk [c]
    else String.join ((utf8Bytes c).map percentEncodeByte))

/-! ## The HTTP requests the wrappers issue (`src/gapi.js`,
`src/unnamed/part_000`, `src/gommo-client.js`)

Each wrapper method builds its URL by template-literal interpolation of
the stored base URL and the `encodeURIComponent`-encoded argument, and
issues one `fetch` with a fixed method. The embedding records the
(method, url) pair each call hands to `fetch`. -/

/-- HTTP request method. -/
inductive HttpMethod where
  | GET
  | POST
  | PUT
  deriving Repr, DecidableEq

/-- The request a wrapper method issues: its HTTP method and full URL. -/
structure HttpRequest where
  method : HttpMethod
  url : String
  deriving Repr, DecidableEq

namespace GameAPI

/-- `GameAPI.addPlayer` (gapi.js): `POST baseURL + "/player/" +
encodeURIComponent(name)`. -/
def addPlayerRequest (baseURL name : String) : HttpRequest :=
  ⟨.POST, baseURL ++ "/player/" ++ encodeURIComponent name⟩

/-- `GameAPI.getPlayer` (gapi.js): `GET baseURL + "/player/" +
encodeURIComponent(id)`. -/
def getPlayerRequest (baseURL id : String) : HttpRequest :=
  ⟨.GET, baseURL ++ "/player/" ++ encodeURIComponent id⟩

/-- `GameAPI.getPlayerSurroundings` (gapi.js; the part_000 variant
builds the same URL from `this.playerToken`): `GET baseURL + "/player/"
+ encodeURIComponent(id) + "/surroundings"`. -/
def getPlayerSurroundingsRequest (baseURL id : String) : HttpRequest :=
  ⟨.GET, baseURL ++ "/player/" ++ encodeURIComponent id ++ "/surroundings"⟩

/-- `GameAPI.setPlayerDirection` (gapi.js): `PUT baseURL + "/player/" +
encodeURIComponent(id) + "/direction/" + encodeURIComponent(direction)`. -/
def setPlayerDirectionRequest (baseURL id direction : String) : HttpRequest :=
  ⟨.PUT, baseURL ++ "/player/" ++ encodeURIComponent id ++ "/direction/" ++
    encodeURIComponent direction⟩

/-- `GameAPI.getAllConfig` (gapi.js): `GET baseURL + "/config"`. -/
def getAllConfigRequest (baseURL : String) : HttpRequest :=
  ⟨.GET, baseURL ++ "/config"⟩

end GameAPI

/-! ## Response handling of each `GameAPI` method (`src/gapi.js`)

Each method awaits its `fetch`, and — except `addPlayer` — checks
`response.ok`, throwing `new Error(...)` when it is false; otherwise it
returns `response.json()` (the `setPlayer*` methods return
`response.status === 200` instead). `addPlayer` returns
`response.json()` with no status check at all. The embedding maps the
arrived response to the settlement of the method's promise. -/

namespace GameAPI

/-- `GameAPI.addPlayer` (gapi.js lines 7-12): no `ok` check; resolves
with the parsed body whatever the status. -/
def addPlayer (resp : HttpResponse) : Except JsError JsValue :=
  .ok resp.bodyJson

/-- `GameAPI.getPlayer` (gapi.js lines 14-20). -/
def getPlayer (resp : HttpResponse) : Except JsError JsValue :=
  if !resp.ok then
    .error (.plain ("Failed to fetch player: " ++ resp.statusText))
  else
    .ok resp.bodyJson

/-- `GameAPI.getPlayerSurroundings` (gapi.js lines 22-28). -/
def getPlayerSurroundings (resp : HttpResponse) : Except JsError JsValue :=
  if !resp.ok then
    .error (.plain ("Failed to fetch surroundings: " ++ resp.statusText))
  else
    .ok resp.bodyJson

/-- `GameAPI.setPlayerDirection` (gapi.js lines 30-38): throws on
non-ok, otherwise resolves with `response.status === 200`. -/
def setPlayerDirection (resp : HttpResponse) : Except JsError Bool :=
  if !resp.ok then
    .error (.plain ("Failed to set player direction: " ++ resp.statusText))
  else
    .ok (resp.status == 200)

/-- `GameAPI.setPlayerConsume` (gapi.js lines 40-48). -/
def setPlayerConsume (resp : HttpResponse) : Except JsError Bool :=
  if !resp.ok then
    .error (.plain ("Failed to set player consume: " ++ resp.statusText))
  else
    .ok (resp.status == 200)

/-- `GameAPI.setPlayerDiscard` (gapi.js lines 50-58). -/
def setPlayerDiscard (resp : HttpResponse) : Except JsError Bool :=
  if !resp.ok then
    .error (.plain ("Failed to set player discard: " ++ resp.statusText))
  else
    .ok (resp.status == 200)

/-- `GameAPI.setPlayerPlay` (gapi.js lines 60-68). -/
def setPlayerPlay (resp : HttpResponse) : Except JsError Bool :=
  if !resp.ok then
    .error (.plain ("Failed to set player play: " ++ resp.statusText))
  else
    .ok (resp.status == 200)

/-- `GameAPI.getTurnTimer` (gapi.js lines 71-77). -/
def getTurnTimer (resp : HttpResponse) : Except JsError JsValue :=
  if !resp.ok then
    .error (.plain ("Failed to fetch turn timer: " ++ resp.statusText))
  else
    .ok resp.bodyJson

/-- `GameAPI.getTurnLength` (gapi.js lines 79-85). -/
def getTurnLength (resp : HttpResponse) : Except JsError JsValue :=
  if !resp.ok then
    .error (.plain ("Failed to fetch turn length: " ++ resp.statusText))
  else
    .ok resp.bodyJson

/-- `GameAPI.getMapSize` (gapi.js lines 87-93). -/
def getMapSize (resp : HttpResponse) : Except JsError JsValue :=
  if !resp.ok then
    .error (.plain ("Failed to fetch map size: " ++ resp.statusText))
  else
    .ok resp.bodyJson

/-- `GameAPI.hasGameBeenWon` (gapi.js lines 95-101). -/
def hasGameBeenWon (resp : HttpResponse) : Except JsError JsValue :=
  if !resp.ok then
    .error (.plain ("Failed to fetch game state: " ++ resp.statusText))
  else
    .ok resp.bodyJson

/-- `GameAPI.getAllConfig` (gapi.js lines 103-109). -/
def getAllConfig (resp : HttpResponse) : Except JsError JsValue :=
  if !resp.ok then
    .error (.plain ("Failed to fetch all configuration: " ++ resp.statusText))
  else
    .ok resp.bodyJson

end GameAPI

/-! ## `GommoClient` (`src/gommo-client.js`) -/

namespace GommoClient

/-- What the awaited `fetch` inside `GommoClient._request` produced: a
response, an abort (the timeout controller fired), or another network
error. -/
inductive FetchOutcome where
  | response (r : HttpResponse)
  | abortError
  | networkError (msg : String)

/-- The response/error handling of `GommoClient._request`
(gommo-client.js lines 54-118): a non-ok response throws
`GommoError("HTTP {status}: {statusText}", status, errorText)`; an ok
response resolves with `response.json()` when the content type is JSON
and with `response.text()` otherwise; an abort becomes
`GommoError("Request timeout", 408, ...)`; any other fetch failure
becomes `GommoError("Network error: ...", 0, ...)`. -/
def request (outcome : FetchOutcome) : Except JsError JsValue :=
  match outcome with
  | .response r =>
    if !r.ok then
      .error (.gommo ("HTTP " ++ toString r.status ++ ": " ++ r.statusText)
        r.status r.bodyText)
    else if r.contentTypeJson then
      .ok r.bodyJson
    else
      .ok (.str r.bodyText)
  | .abortError => .error (.gommo "Request timeout" 408 "Request timed out")
  | .networkError m =>
    .error (.gommo ("Network error: " ++ m) 0 m)

/-- `GommoClient.getGameState` delegates to
`this._request('GET', '/config')` with no further handling. -/
def getGameState (outcome : FetchOutcome) : Except JsError JsValue :=
  request outcome

/-- `GommoClient.ping` (gommo-client.js lines 260-267): awaits
`getGameState` inside `try`, returning `true` on success and `false`
from the `catch` on any thrown error. The argument is the settlement of
the inner `getGameState` call. -/
def ping (gameStateResult : Except JsError JsValue) : Except JsError Bool :=
  match gameStateResult with
  | .ok _ => .ok true
  | .error _ => .ok false

end GommoClient

/-! ## The token-holding `GameAPI` variant (`src/unnamed/part_000`)

This variant keeps `this.playerToken` (initialised to `""`, settable by
`setToken`) and its `addPlayer` runs

```
this.playerToken = response.json();
return response.json();
```

`Response.json()` consumes the one-shot body stream: the first call
resolves with the parsed body and marks the body used; a second call on
the same response rejects with a `TypeError` (body stream already
read). Neither call here is awaited before the assignment, so the field
receives the *promise object*, and the value the async method returns
(hence what its promise settles to) is the second, rejected `json()`
promise. -/

/-- A response body stream: the parsed value a fresh `json()` call
resolves with, and whether the body has already been consumed. -/
structure BodyStream where
  value : JsValue
  bodyUsed : Bool

/-- `Response.json()` on a one-shot body: resolves with the parsed
value and consumes the body, or rejects when the body was already
read. Returns the promise's settlement and the stream afterwards. -/
def responseJson (r : BodyStream) : Except JsError JsValue × BodyStream :=
  if r.bodyUsed then (.error .typeErrorBodyUsed, r)
  else (.ok r.value, { r with bodyUsed := true })

/-- The instance state of the part_000 `GameAPI`: its base URL and the
`playerToken` field. -/
structure GameAPIv0State where
  baseURL : String
  playerToken : JsValue

/-- The part_000 constructor: `this.playerToken = ""`. -/
def GameAPIv0.init (baseURL : String) : GameAPIv0State :=
  { baseURL := baseURL, playerToken := .str "" }

/-- `GameAPI.setToken` (part_000 lines 7-9). -/
def GameAPIv0.setToken (st : GameAPIv0State) (token : JsValue) : GameAPIv0State :=
  { st with playerToken := token }

/-- A promise object built from a settlement, as a `JsValue`. -/
def promiseOf : Except JsError JsValue → JsValue
  | .ok v => .promiseResolved v
  | .error e =>
    .promiseRejected (match e with
      | .plain m => m
      | .gommo m _ _ => m
      | .typeErrorBodyUsed => "Failed to execute json on Response: body stream already read"
      | .referenceErrorUndeclared n => n ++ " is not defined")

/-- `GameAPI.addPlayer` of part_000 (lines 12-21) on the arrived
response body: assigns the un-awaited first `response.json()` promise to
`this.playerToken`, then returns a second `response.json()` call on the
same body. The result is the instance state after the call together
with the settlement of the promise `addPlayer` returns. -/
def GameAPIv0.addPlayer (st : GameAPIv0State) (body : BodyStream) :
    GameAPIv0State × Except JsError JsValue :=
  let firstJson := responseJson body
  let st := { st with playerToken := promiseOf firstJson.1 }
  let secondJson := responseJson firstJson.2
  (st, secondJson.1)

/-! ## The data-update retry functions (`src/unnamed/part_001`)

`CONFIG` (part_001 lines 6-16) supplies `MAX_RETRY_ATTEMPTS: 3` and
`RETRY_DELAY: 1000`. Each of `updatePlayerData`, `updateGameConfig` and
`updateSurroundingsData` takes a `retryCount` (default 0), returns
immediately when its guard fails (`gameClient`/`currentPlayerId`
missing), applies the fetched data on success, and on a thrown error
either schedules `setTimeout(() => update...(retryCount + 1),
CONFIG.RETRY_DELAY)` when `retryCount < CONFIG.MAX_RETRY_ATTEMPTS`, or
calls `showUserMessage(..., 'error')` and schedules nothing. The
embedding records which of these four actions one invocation performs. -/

/-- `CONFIG.MAX_RETRY_ATTEMPTS` (part_001 line 14). -/
def MAX_RETRY_ATTEMPTS : Nat := 3

/-- `CONFIG.RETRY_DELAY`, milliseconds (part_001 line 15). -/
def RETRY_DELAY : Nat := 1000

/-- What one invocation of a data-update function does: nothing (guard
failed), applied the fetched data, scheduled a retry via `setTimeout`
with the given next `retryCount` and delay, or reported failure to the
user and scheduled nothing. -/
inductive UpdateAction where
  | noop
  | applied (data : JsValue)
  | retryScheduled (nextRetryCount delayMs : Nat)
  | failureReported (msg : String)

/-- `updatePlayerData` (part_001 lines 633-654). `fetchResult` is the
settlement of `gameClient.getPlayer(currentPlayerId)`. -/
def updatePlayerData (hasGameClient hasCurrentPlayerId : Bool)
    (fetchResult : Except JsError JsValue) (retryCount : Nat) : UpdateAction :=
  if !hasGameClient || !hasCurrentPlayerId then .noop
  else
    match fetchResult with
    | .ok d => .applied d
    | .error _ =>
      if retryCount < MAX_RETRY_ATTEMPTS then
        .retryScheduled (retryCount + 1) RETRY_DELAY
      else
        .failureReported "Failed to update player data"

/-- `updateGameConfig` (part_001 lines 660-685): same shape, guarded
only on `gameClient`. -/
def updateGameConfig (hasGameClient : Bool)
    (fetchResult : Except JsError JsValue) (retryCount : Nat) : UpdateAction :=
  if !hasGameClient then .noop
  else
    match fetchResult with
    | .ok d => .applied d
    | .error _ =>
      if retryCount < MAX_RETRY_ATTEMPTS then
        .retryScheduled (retryCount + 1) RETRY_DELAY
      else
        .failureReported "Failed to update game configuration"

/-- `updateSurroundingsData` (part_001 lines 691-715). -/
def updateSurroundingsData (hasGameClient hasCurrentPlayerId : Bool)
    (fetchResult : Except JsError JsValue) (retryCount : Nat) : UpdateAction :=
  if !hasGameClient || !hasCurrentPlayerId then .noop
  else
    match fetchResult with
    | .ok d => .applied d
    | .error _ =>
      if retryCount < MAX_RETRY_ATTEMPTS then
        .retryScheduled (retryCount + 1) RETRY_DELAY
      else
        .failureReported "Failed to update surroundings"

/-! ## The `Tile` widget (`src/tile.js` and `src/unnamed/part_005`)

Both `Tile` classes keep the same data fields (`currentState`,
`zombieCount`, `playerCount`, the four planned-move counts) and DOM
pieces (a displayed image, a player/undead overlay pair, planned-move
arrows on the central tile only), and share `updateOverlays` /
`updatePlannedMoveArrows` verbatim. They differ in how
`updateByContent` changes the displayed image: tile.js sets the single
image container directly and triggers a fade, part_005 runs a
front/back face flip animation guarded by `isFlipping`.

The server-supplied `content` object is modelled by `TileContent`; the
tile's `this.images` asset map by a function from type to image path. -/

/-- The object a surroundings update hands to `updateByContent`: the
fields the method reads. -/
structure TileContent where
  tileType : String
  zombieCount : Int
  playerCount : Int
  playersPlanMoveNorth : Int
  playersPlanMoveEast : Int
  playersPlanMoveSouth : Int
  playersPlanMoveWest : Int

/-- One planned-move arrow's DOM state: its count text and its
`style.display` value. -/
structure Arrow where
  countText : String
  display : String

/-- The four planned-move arrows (created only for the `CE` tile). -/
structure ArrowSet where
  north : Arrow
  east : Arrow
  south : Arrow
  west : Arrow

/-- The overlay DOM state both `Tile` classes maintain: the two count
overlays' text and `style.display`, and the optional arrow set. -/
structure Overlays where
  playerText : String
  playerDisplay : String
  undeadText : String
  undeadDisplay : String
  arrows : Option ArrowSet

/-- `updatePlannedMoveArrows` on one arrow: count text set to the
count, shown (`flex`) exactly when the count is positive. -/
def updateArrow (a : Arrow) (count : Int) : Arrow :=
  { a with countText := toString count,
           display := if 0 < count then "flex" else "none" }

/-- `updateOverlays` (identical in tile.js lines 154-170 and part_005):
sets `P:`/`U:` texts, forces both overlays visible, then
`updatePlannedMoveArrows` updates each arrow when arrows exist. -/
def updateOverlaysWith (o : Overlays)
    (playerCount zombieCount north east south west : Int) : Overlays :=
  let o := { o with playerText := "P:" ++ toString playerCount,
                    playerDisplay := "block",
                    undeadText := "U:" ++ toString zombieCount,
                    undeadDisplay := "block" }
  match o.arrows with
  | none => o
  | some a =>
    let updated : ArrowSet :=
      { north := updateArrow a.north north,
        east := updateArrow a.east east,
        south := updateArrow a.south south,
        west := updateArrow a.west west }
    { o with arrows := some updated }

/-- The tile.js `Tile` instance state: data fields, the single image
container's background, the `tile-updated` animation class flag set by
`animateUpdate`, and the overlays. -/
structure TileJs where
  images : String → String
  currentState : String
  zombieCount : Int
  playerCount : Int
  playersPlanMoveNorth : Int
  playersPlanMoveEast : Int
  playersPlanMoveSouth : Int
  playersPlanMoveWest : Int
  isFlipping : Bool
  imageBackground : String
  updatedClass : Bool
  overlays : Overlays

/-- `Tile.updateByContent` of tile.js (lines 124-152): reads
`content["TileType"]`, returns at once when `this.isFlipping` is
truthy, otherwise swaps the image on a type change (with
`animateUpdate`), copies the six counts, and refreshes the overlays.
The `playerDirection` parameter is unused in this version. -/
def TileJs.updateByContent (t : TileJs) (content : TileContent)
    (playerDirection : Option String) : TileJs :=
  let _ := playerDirection
  let newType := content.tileType
  if t.isFlipping then t
  else
    let t :=
      if t.currentState ≠ newType then
        { t with imageBackground := "url(" ++ t.images newType ++ ")",
                 currentState := newType,
                 updatedClass := true }
      else t
    let t := { t with zombieCount := content.zombieCount,
                      playerCount := content.playerCount,
                      playersPlanMoveNorth := content.playersPlanMoveNorth,
                      playersPlanMoveEast := content.playersPlanMoveEast,
                      playersPlanMoveSouth := content.playersPlanMoveSouth,
                      playersPlanMoveWest := content.playersPlanMoveWest }
    let o := updateOverlaysWith t.overlays t.playerCount t.zombieCount
      t.playersPlanMoveNorth t.playersPlanMoveEast
      t.playersPlanMoveSouth t.playersPlanMoveWest
    { t with overlays := o }

/-- The part_005 `Tile` instance state: front/back flip faces, the
`isFlipping` guard flag, and the flip `performFlipAnimation` has
scheduled (its new type and flip-direction class), beside the shared
data fields and overlays. -/
structure TileFlip where
  images : String → String
  currentState : String
  zombieCount : Int
  playerCount : Int
  playersPlanMoveNorth : Int
  playersPlanMoveEast : Int
  playersPlanMoveSouth : Int
  playersPlanMoveWest : Int
  isFlipping : Bool
  frontFaceImage : String
  backFaceImage : String
  pendingFlip : Option (String × String)
  overlays : Overlays

/-- `performFlipAnimation` of part_005 (lines 227-277), its synchronous
part: marks the tile flipping, paints the back face, picks the
direction class from the (lowercased) player direction when one is
truthy, and schedules the animated swap (recorded in `pendingFlip`). -/
def TileFlip.performFlipAnimation (t : TileFlip) (newType : String)
    (direction : Option String) : TileFlip :=
  let flipClass :=
    match direction with
    | some d =>
      if d = "" then "flipping-east"
      else
        match d.toLower with
        | "north" => "flipping-north"
        | "south" => "flipping-south"
        | "east" => "flipping-east"
        | "west" => "flipping-west"
        | _ => "flipping-east"
    | none => "flipping-east"
  { t with isFlipping := true,
           backFaceImage := "url(" ++ t.images newType ++ ")",
           pendingFlip := some (newType, flipClass) }

/-- `updateType` of part_005 (lines 206-224): no-op on an unchanged
type; initial setup paints the front face directly; a flip in progress
suppresses a new one; otherwise the flip animation runs. -/
def TileFlip.updateType (t : TileFlip) (type : String)
    (direction : Option String) : TileFlip :=
  if t.currentState = type then t
  else if t.currentState = "" then
    { t with frontFaceImage := "url(" ++ t.images type ++ ")",
             currentState := type }
  else if t.isFlipping then t
  else TileFlip.performFlipAnimation t type direction

/-- `Tile.updateByContent` of part_005 (lines 139-167): the same
`isFlipping` guard first, then `updateType` on a genuine type change
(or direct front-face setup when `currentState` is still empty), the
six counts, and the overlays. -/
def TileFlip.updateByContent (t : TileFlip) (content : TileContent)
    (playerDirection : Option String) : TileFlip :=
  let newType := content.tileType
  if t.isFlipping then t
  else
    let t :=
      if t.currentState ≠ "" ∧ t.currentState ≠ newType then
        TileFlip.updateType t newType playerDirection
      else if t.currentState = "" then
        { t with frontFaceImage := "url(" ++ t.images newType ++ ")",
                 currentState := newType }
      else t
    let t := { t with zombieCount := content.zombieCount,
                      playerCount := content.playerCount,
                      playersPlanMoveNorth := content.playersPlanMoveNorth,
                      playersPlanMoveEast := content.playersPlanMoveEast,
                      playersPlanMoveSouth := content.playersPlanMoveSouth,
                      playersPlanMoveWest := content.playersPlanMoveWest }
    let o := updateOverlaysWith t.overlays t.playerCount t.zombieCount
      t.playersPlanMoveNorth t.playersPlanMoveEast
      t.playersPlanMoveSouth t.playersPlanMoveWest
    { t with overlays := o }

/-! ## Polling timers of `GommoClient` (`src/gommo-client.js`)

`startPolling` (lines 276-295) first calls `stopPolling` when
`this._pollingTimer` is non-null, then stores a fresh `setInterval`
timer in `_pollingTimer`; `stopPolling` (lines 297-304) clears the
stored timer and resets the field to null; `dispose` (lines 621-634)
starts by calling `stopPolling`. The embedding names timers by the
order of their creation and tracks, beside the `_pollingTimer` field,
the set of interval timers created by `startPolling` and not yet
cleared (`liveTimers`). -/

namespace GommoClient

/-- The timer-related state of a `GommoClient` instance: the
`_pollingTimer` field, the interval timers currently live, and the id
the next `setInterval` call would return. -/
structure PollingState where
  pollingTimer : Option Nat
  liveTimers : List Nat
  nextTimerId : Nat

/-- A fresh client: `this._pollingTimer = null`, no timer created yet. -/
def newClient : PollingState :=
  { pollingTimer := none, liveTimers := [], nextTimerId := 0 }

/-- `GommoClient.stopPolling`: when `_pollingTimer` is non-null,
`clearInterval` it and set the field to null; otherwise do nothing. -/
def stopPolling (s : PollingState) : PollingState :=
  match s.pollingTimer with
  | some t => { s with liveTimers := s.liveTimers.erase t, pollingTimer := none }
  | none => s

/-- `GommoClient.startPolling`: stop any existing timer first, then
install a fresh `setInterval` timer and store it in `_pollingTimer`. -/
def startPolling (s : PollingState) : PollingState :=
  let s := if s.pollingTimer.isSome then stopPolling s else s
  { pollingTimer := some s.nextTimerId,
    liveTimers := s.nextTimerId :: s.liveTimers,
    nextTimerId := s.nextTimerId + 1 }

/-- `GommoClient.dispose`: its first action is `this.stopPolling()`;
the rest of the method touches listeners, the request queue and the
connection-health record, none of which create or clear timers. -/
def dispose (s : PollingState) : PollingState :=
  stopPolling s

/-- One of the three timer-affecting calls on a client. -/
inductive PollOp where
  | start
  | stop
  | disposeClient

/-- Apply one call to the client state. -/
def applyPollOp (s : PollingState) : PollOp → PollingState
  | .start => startPolling s
  | .stop => stopPolling s
  | .disposeClient => dispose s

/-- Run a sequence of calls on a fresh client. -/
def runPollOps (ops : List PollOp) : PollingState :=
  ops.foldl applyPollOp newClient

end GommoClient

/-! ## `findIdOfCardForType` (`src/unnamed/part_006` and
`src/unnamed/part_008`)

Both versions loop `for (... key in cardInstances)` and return the
first `key` with `cardInstances[key].getType() === type`, else `null`.
The part_006 version declares its loop variable (`const key`); the
part_008 version writes `for (key in cardInstances)` with `key`
declared nowhere — and part_008 is an ES module (it uses `export`), so
its code runs in strict mode, where the for-in head's assignment to the
unresolvable name `key` throws a `ReferenceError` on the first
iteration. A card collection is modelled as the association list of
(property key, `card.getType()` value) in enumeration order. -/

/-- `findIdOfCardForType` of card.js (part_006 lines 74-81): first key
whose card type equals the requested one, else `null`. -/
def findIdOfCardForType : List (String × String) → String → Option String
  | [], _ => none
  | (key, cardType) :: rest, ty =>
    if cardType = ty then some key else findIdOfCardForType rest ty

/-- A strict-mode assignment of a for-in key to the undeclared name
`key`: throws `ReferenceError` instead of producing the binding. -/
def strictAssignUndeclaredKey (k : String) : Except JsError String :=
  let _ := k
  .error (.referenceErrorUndeclared "key")

/-- `findIdOfCardForType` of part_008 (lines 37-44): the identical loop
but with the loop variable undeclared, so each iteration starts with a
strict-mode assignment to the unresolvable name `key`. An empty
collection performs no iteration and returns `null`. -/
def findIdOfCardForTypeV8 : List (String × String) → String → Except JsError (Option String)
  | [], _ => .ok none
  | (k, cardType) :: rest, ty =>
    match strictAssignUndeclaredKey k with
    | .error e => .error e
    | .ok key =>
      if cardType = ty then .ok (some key) else findIdOfCardForTypeV8 rest ty

/-! ## Concrete inputs used to exhibit counterexamples and witnesses -/

/-- A failed server response (HTTP 500) whose body nevertheless parses:
the response on which `GameAPI.addPlayer`'s missing `ok` check shows. -/
def addPlayerBadResponse : HttpResponse :=
  { ok := false, status := 500, statusText := "Internal Server Error",
    contentTypeJson := true, bodyJson := .str "tok-1", bodyText := "boom" }

/-- A fresh response body carrying the token string a successful
`POST /player/{name}` returns. -/
def tokenResponseBody : BodyStream :=
  { value := .str "abc123", bodyUsed := false }

/-- A concrete tile.js tile currently mid-flip. -/
def flippingTileJs : TileJs :=
  { images := fun _ => "img/forest.jpg",
    currentState := "Forest",
    zombieCount := 2, playerCount := 1,
    playersPlanMoveNorth := 0, playersPlanMoveEast := 1,
    playersPlanMoveSouth := 0, playersPlanMoveWest := 0,
    isFlipping := true,
    imageBackground := "url(img/forest.jpg)",
    updatedClass := false,
    overlays := { playerText := "P:1", playerDisplay := "block",
                  undeadText := "U:2", undeadDisplay := "block",
                  arrows := none } }

/-- A concrete part_005 tile currently mid-flip. -/
def flippingTileFlip : TileFlip :=
  { images := fun _ => "img/forest.jpg",
    currentState := "Forest",
    zombieCount := 2, playerCount := 1,
    playersPlanMoveNorth := 0, playersPlanMoveEast := 1,
    playersPlanMoveSouth := 0, playersPlanMoveWest := 0,
    isFlipping := true,
    frontFaceImage := "url(img/forest.jpg)",
    backFaceImage := "url(img/city.jpg)",
    pendingFlip := some ("City", "flipping-east"),
    overlays := { playerText := "P:1", playerDisplay := "block",
                  undeadText := "U:2", undeadDisplay := "block",
                  arrows := none } }

/-- A concrete surroundings payload that would change every field were
the guard not in the way. -/
def cityContent : TileContent :=
  { tileType := "City",
    zombieCount := 9, playerCount := 4,
    playersPlanMoveNorth := 1, playersPlanMoveEast := 2,
    playersPlanMoveSouth := 3, playersPlanMoveWest := 4 }

/-- Whether a settled promise rejected, i.e. whether the method threw. -/
def throws {α : Type} : Except JsError α → Bool
  | .error _ => true
  | .ok _ => false

/-- The timer invariant of a `GommoClient`: the live interval timers
are exactly the content of the `_pollingTimer` field. -/
def GommoClient.pollInv (s : GommoClient.PollingState) : Prop :=
  s.liveTimers = s.pollingTimer.toList

/-! # Theorems -/

/-- Sanity check on the `encodeURIComponent` model: a space becomes
`%20`, a slash `%2F`, unreserved characters stay. -/
theorem encodeURIComponent_space_slash :
    encodeURIComponent "a b/c" = "a%20b%2Fc" := by rfl

/-- C4: for every baseURL, player id and direction string, `getPlayer`
requests `GET baseURL + "/player/{id}"`, `getPlayerSurroundings`
requests `GET baseURL + "/player/{id}/surroundings"`,
`setPlayerDirection` issues a `PUT` to
`baseURL + "/player/{id}/direction/{dir}"`, and the config fetch
requests `GET baseURL + "/config"`, the id and direction
percent-encoded via `encodeURIComponent`. -/
theorem C4_rest_paths (baseURL id direction : String) :
    GameAPI.getPlayerRequest baseURL id =
      ⟨.GET, baseURL ++ "/player/" ++ encodeURIComponent id⟩ ∧
    GameAPI.getPlayerSurroundingsRequest baseURL id =
      ⟨.GET, baseURL ++ "/player/" ++ encodeURIComponent id ++ "/surroundings"⟩ ∧
    GameAPI.setPlayerDirectionRequest baseURL id direction =
      ⟨.PUT, baseURL ++ "/player/" ++ encodeURIComponent id ++ "/direction/" ++
        encodeURIComponent direction⟩ ∧
    GameAPI.getAllConfigRequest baseURL = ⟨.GET, baseURL ++ "/config"⟩ := by
  exact ⟨rfl, rfl, rfl, rfl⟩

/-- C8: `GommoClient.ping` always resolves to a boolean — `true` when
the inner `getGameState` succeeded, `false` when it threw — and never
propagates the error. -/
theorem C8_ping_never_throws (r : Except JsError JsValue) (v : JsValue)
    (e : JsError) :
    (∃ b, GommoClient.ping r = Except.ok b) ∧
    GommoClient.ping (Except.ok v) = Except.ok true ∧
    GommoClient.ping (Except.error e) = Except.ok false := by
  refine ⟨?_, rfl, rfl⟩
  cases r with
  | ok _ => exact ⟨true, rfl⟩
  | error _ => exact ⟨false, rfl⟩

/-- C2 counterexample: `GameAPI.addPlayer` (gapi.js lines 7-12) checks
no status at all — on an HTTP 500 response it throws nothing and
resolves with the parsed response body, contradicting the claim that
every wrapper method throws on a non-ok status. -/
theorem C2_addPlayer_counterexample :
    addPlayerBadResponse.ok = false ∧
    GameAPI.addPlayer addPlayerBadResponse = Except.ok (JsValue.str "tok-1") := by
  exact ⟨rfl, rfl⟩

/-- C2 amended: every embedded wrapper method other than
`GameAPI.addPlayer` — the other eleven `GameAPI` methods and
`GommoClient._request` (hence every `GommoClient` endpoint method) —
throws exactly when the response status is not ok, while
`GameAPI.addPlayer` resolves with the parsed body regardless of
status. -/
theorem C2_status_check (resp : HttpResponse) :
    throws (GameAPI.getPlayer resp) = !resp.ok ∧
    throws (GameAPI.getPlayerSurroundings resp) = !resp.ok ∧
    throws (GameAPI.setPlayerDirection resp) = !resp.ok ∧
    throws (GameAPI.setPlayerConsume resp) = !resp.ok ∧
    throws (GameAPI.setPlayerDiscard resp) = !resp.ok ∧
    throws (GameAPI.setPlayerPlay resp) = !resp.ok ∧
    throws (GameAPI.getTurnTimer resp) = !resp.ok ∧
    throws (GameAPI.getTurnLength resp) = !resp.ok ∧
    throws (GameAPI.getMapSize resp) = !resp.ok ∧
    throws (GameAPI.hasGameBeenWon resp) = !resp.ok ∧
    throws (GameAPI.getAllConfig resp) = !resp.ok ∧
    throws (GommoClient.request (.response resp)) = !resp.ok ∧
    throws (GameAPI.addPlayer resp) = false := by
  obtain ⟨ok, status, statusText, ctJson, bodyJson, bodyText⟩ := resp
  cases ok <;> cases ctJson <;>
    simp [GameAPI.getPlayer, GameAPI.getPlayerSurroundings,
      GameAPI.setPlayerDirection, GameAPI.setPlayerConsume,
      GameAPI.setPlayerDiscard, GameAPI.setPlayerPlay,
      GameAPI.getTurnTimer, GameAPI.getTurnLength, GameAPI.getMapSize,
      GameAPI.hasGameBeenWon, GameAPI.getAllConfig, GameAPI.addPlayer,
      GommoClient.request, throws]

/-- C9: the part_006 `findIdOfCardForType` finds the first matching key
(`card0` here), but the part_008 version — strict-mode module code
whose loop variable `key` is never declared — throws a
`ReferenceError` on the same one-card collection instead of returning
that key; the two agree only on the empty collection. -/
theorem C9_undeclared_key_bug :
    findIdOfCardForType [("card0", "Food")] "Food" = some "card0" ∧
    findIdOfCardForTypeV8 [("card0", "Food")] "Food" =
      Except.error (JsError.referenceErrorUndeclared "key") ∧
    findIdOfCardForType [] "Food" = none ∧
    findIdOfCardForTypeV8 [] "Food" = Except.ok none := by
  exact ⟨rfl, rfl, rfl, rfl⟩

/-- C7: on a successful `POST /player/{name}` response whose body is
the token `abc123`, the part_000 `addPlayer` leaves `playerToken`
holding the un-awaited `response.json()` promise object — not the
token string — and the promise the method returns rejects with the
body-already-read `TypeError`, because `response.json()` is called a
second time on the consumed body. -/
theorem C7_addPlayer_token_bug :
    (GameAPIv0.addPlayer (GameAPIv0.init "http://localhost:8080")
        tokenResponseBody).1.playerToken =
      JsValue.promiseResolved (JsValue.str "abc123") ∧
    (GameAPIv0.addPlayer (GameAPIv0.init "http://localhost:8080")
        tokenResponseBody).2 = Except.error JsError.typeErrorBodyUsed := by
  exact ⟨rfl, rfl⟩

/-- C1 counterexample: the waiting time between consecutive retries
does not increase — the delay scheduled before the first retry and the
delay scheduled before the second are both `CONFIG.RETRY_DELAY`
(1000 ms), refuting retry-with-backoff. -/
theorem C1_no_backoff_counterexample :
    updatePlayerData true true (Except.error (JsError.plain "boom")) 0 =
      UpdateAction.retryScheduled 1 1000 ∧
    updatePlayerData true true (Except.error (JsError.plain "boom")) 1 =
      UpdateAction.retryScheduled 2 1000 ∧
    decide (1000 < 1000) = false := by
  exact ⟨rfl, rfl, rfl⟩

/-- C1 amended: every retry any of the three data-update functions
schedules uses the constant delay `CONFIG.RETRY_DELAY` (1000 ms) and
increments the retry counter by one; the retry logic lives in these
functions of the main application module, not in the HTTP client
wrappers. -/
theorem C1_constant_retry_delay (e : JsError) (hc hp : Bool) (k n d : Nat) :
    (updatePlayerData hc hp (Except.error e) k = UpdateAction.retryScheduled n d →
      d = RETRY_DELAY ∧ n = k + 1) ∧
    (updateGameConfig hc (Except.error e) k = UpdateAction.retryScheduled n d →
      d = RETRY_DELAY ∧ n = k + 1) ∧
    (updateSurroundingsData hc hp (Except.error e) k = UpdateAction.retryScheduled n d →
      d = RETRY_DELAY ∧ n = k + 1) := by
  refine ⟨?_, ?_, ?_⟩ <;> intro h <;> cases hc <;> cases hp <;>
    simp only [updatePlayerData, updateGameConfig,
      updateSurroundingsData] at h <;>
    (try simp at h) <;> (try split at h) <;> simp_all

/-- C1 witness: at retry count 0 the player-data updater schedules a
retry, whose delay the amended theorem pins to `RETRY_DELAY` and whose
next counter is 1. -/
theorem C1_constant_retry_delay_witness :
    (1000 = RETRY_DELAY ∧ 1 = 0 + 1) ∧
    (1000 = RETRY_DELAY ∧ 2 = 1 + 1) ∧
    (1000 = RETRY_DELAY ∧ 3 = 2 + 1) :=
  ⟨(C1_constant_retry_delay (JsError.plain "boom") true true 0 1 1000).1 rfl,
   (C1_constant_retry_delay (JsError.plain "boom") true true 1 2 1000).2.1 rfl,
   (C1_constant_retry_delay (JsError.plain "boom") true true 2 3 1000).2.2 rfl⟩

/-- C3: under consecutive failures each data-update function retries
with counter values 1, 2, 3 — three retries after the initial failed
attempt, the `MAX_RETRY_ATTEMPTS` bound — and at every counter from 3
on it reports failure to the user and schedules nothing further. -/
theorem C3_retry_limit (e : JsError) (k : Nat) :
    updatePlayerData true true (Except.error e) 0 =
      UpdateAction.retryScheduled 1 RETRY_DELAY ∧
    updatePlayerData true true (Except.error e) 1 =
      UpdateAction.retryScheduled 2 RETRY_DELAY ∧
    updatePlayerData true true (Except.error e) 2 =
      UpdateAction.retryScheduled 3 RETRY_DELAY ∧
    updatePlayerData true true (Except.error e) (MAX_RETRY_ATTEMPTS + k) =
      UpdateAction.failureReported "Failed to update player data" ∧
    updateGameConfig true (Except.error e) 0 =
      UpdateAction.retryScheduled 1 RETRY_DELAY ∧
    updateGameConfig true (Except.error e) 1 =
      UpdateAction.retryScheduled 2 RETRY_DELAY ∧
    updateGameConfig true (Except.error e) 2 =
      UpdateAction.retryScheduled 3 RETRY_DELAY ∧
    updateGameConfig true (Except.error e) (MAX_RETRY_ATTEMPTS + k) =
      UpdateAction.failureReported "Failed to update game configuration" ∧
    updateSurroundingsData true true (Except.error e) 0 =
      UpdateAction.retryScheduled 1 RETRY_DELAY ∧
    updateSurroundingsData true true (Except.error e) 1 =
      UpdateAction.retryScheduled 2 RETRY_DELAY ∧
    updateSurroundingsData true true (Except.error e) 2 =
      UpdateAction.retryScheduled 3 RETRY_DELAY ∧
    updateSurroundingsData true true (Except.error e) (MAX_RETRY_ATTEMPTS + k) =
      UpdateAction.failureReported "Failed to update surroundings" := by
  have hge : ¬ (MAX_RETRY_ATTEMPTS + k < MAX_RETRY_ATTEMPTS) := by omega
  refine ⟨rfl, rfl, rfl, ?_, rfl, rfl, rfl, ?_, rfl, rfl, rfl, ?_⟩ <;>
    simp [updatePlayerData, updateGameConfig, updateSurroundingsData, hge]

/-- C5: a call to `updateByContent` while `isFlipping` is set returns
at once, leaving the whole tile — `currentState`, the counts, the
displayed image and the overlays — unchanged, in both the tile.js and
the part_005 version of the class. -/
theorem C5_isFlipping_guard (t : TileJs) (t5 : TileFlip)
    (content : TileContent) (pd : Option String) :
    (t.isFlipping = true → TileJs.updateByContent t content pd = t) ∧
    (t5.isFlipping = true → TileFlip.updateByContent t5 content pd = t5) := by
  constructor <;> intro h <;>
    simp [TileJs.updateByContent, TileFlip.updateByContent, h]

/-- C5 witness: a concrete mid-flip tile of each class is returned
untouched by a payload that would otherwise change every field. -/
theorem C5_isFlipping_guard_witness :
    flippingTileJs.isFlipping = true ∧ flippingTileFlip.isFlipping = true ∧
    TileJs.updateByContent flippingTileJs cityContent none = flippingTileJs ∧
    TileFlip.updateByContent flippingTileFlip cityContent none = flippingTileFlip :=
  ⟨rfl, rfl,
   (C5_isFlipping_guard flippingTileJs flippingTileFlip cityContent none).1 rfl,
   (C5_isFlipping_guard flippingTileJs flippingTileFlip cityContent none).2 rfl⟩

/-- The timer invariant holds of a fresh client. -/
theorem GommoClient.pollInv_newClient : GommoClient.pollInv GommoClient.newClient := rfl

/-- `stopPolling` preserves the timer invariant. -/
theorem GommoClient.pollInv_stopPolling (s : GommoClient.PollingState)
    (h : GommoClient.pollInv s) : GommoClient.pollInv (GommoClient.stopPolling s) := by
  unfold GommoClient.pollInv GommoClient.stopPolling at *
  cases hp : s.pollingTimer with
  | none => simpa [hp] using h
  | some t =>
    rw [hp] at h
    simp [hp, h]

/-- `startPolling` preserves the timer invariant. -/
theorem GommoClient.pollInv_startPolling (s : GommoClient.PollingState)
    (h : GommoClient.pollInv s) : GommoClient.pollInv (GommoClient.startPolling s) := by
  unfold GommoClient.pollInv GommoClient.startPolling GommoClient.stopPolling at *
  cases hp : s.pollingTimer with
  | none =>
    rw [hp] at h
    simp [hp, h]
  | some t =>
    rw [hp] at h
    simp [hp, h]

/-- `dispose` preserves the timer invariant. -/
theorem GommoClient.pollInv_dispose (s : GommoClient.PollingState)
    (h : GommoClient.pollInv s) : GommoClient.pollInv (GommoClient.dispose s) :=
  GommoClient.pollInv_stopPolling s h

/-- Every call sequence preserves the timer invariant. -/
theorem GommoClient.pollInv_foldl (ops : List GommoClient.PollOp)
    (s : GommoClient.PollingState) (h : GommoClient.pollInv s) :
    GommoClient.pollInv (ops.foldl GommoClient.applyPollOp s) := by
  induction ops generalizing s with
  | nil => simpa using h
  | cons op rest ih =>
    refine ih (GommoClient.applyPollOp s op) ?_
    cases op with
    | start => exact GommoClient.pollInv_startPolling s h
    | stop => exact GommoClient.pollInv_stopPolling s h
    | disposeClient => exact GommoClient.pollInv_dispose s h

/-- C6: after any sequence of `startPolling`, `stopPolling` and
`dispose` calls on a fresh `GommoClient`, at most one interval timer
created by `startPolling` is live. -/
theorem C6_single_polling_timer (ops : List GommoClient.PollOp) :
    (GommoClient.runPollOps ops).liveTimers.length ≤ 1 := by
  have h := GommoClient.pollInv_foldl ops GommoClient.newClient
    GommoClient.pollInv_newClient
  unfold GommoClient.pollInv at h
  rw [show GommoClient.runPollOps ops = ops.foldl GommoClient.applyPollOp
    GommoClient.newClient from rfl, h]
  cases (ops.foldl GommoClient.applyPollOp GommoClient.newClient).pollingTimer <;> simp

end Jsmo
